import Mathlib

/-!
Verification of the `chops` shared-buffer library
(`src/include/buffer/shared_buffer.hpp`).

Both buffer classes hold a `std::shared_ptr<std::vector<std::byte>>` member
named `m_data`.  We model the heap of reference-counted vector blocks as a
`Store`: a bump-allocated map from handle numbers to byte vectors.  A
`shared_ptr` value is an `Option Nat`: `some h` is a pointer to block `h`,
`none` is the null pointer (the state of a `std::shared_ptr` after it has
been moved from).  Bytes are `Nat` values (a `std::byte` holds 0..255; no
operation in this header does arithmetic on bytes, so no modular reduction
is needed for the buffer classes themselves).

Operations that mutate a vector through a pointer are state-passing
functions `Store → ... → Store`.  Dereferencing a null `shared_ptr` is
undefined behavior in C++; the model makes those branches inert no-ops and
every theorem about them carries a `validHandle` hypothesis, so the
defaulted branches are never relied upon.
-/

namespace chops

/-- A byte, the model of `std::byte`. -/
abbrev Byte := Nat

/-- `byte_vec`, the model of `std::vector<std::byte>`: a list of bytes. -/
abbrev byte_vec := List Byte

/-- The heap of shared storage blocks.  `len` is the bump-allocation
watermark: handles `0 .. len-1` are allocated, `len` is the next fresh
handle. -/
structure Store where
  len : Nat
  blk : Nat → byte_vec

/-- Pointwise update of the block map. -/
def setFun (f : Nat → byte_vec) (h : Nat) (bv : byte_vec) : Nat → byte_vec :=
  fun i => if i = h then bv else f i

/-- `std::make_shared<byte_vec>(...)`: allocate a fresh block holding `bv`,
returning the new store and the fresh handle. -/
def Store.alloc (s : Store) (bv : byte_vec) : Store × Nat :=
  (⟨s.len + 1, setFun s.blk s.len bv⟩, s.len)

/-- Read the block a handle designates. -/
def Store.getBlock (s : Store) (h : Nat) : byte_vec := s.blk h

/-- Overwrite the block a handle designates. -/
def Store.setBlock (s : Store) (h : Nat) (bv : byte_vec) : Store :=
  ⟨s.len, setFun s.blk h bv⟩

/-- Invariant I1 for a `shared_ptr` value: it is non-null and points at an
allocated block. -/
def validHandle (s : Store) (o : Option Nat) : Prop :=
  match o with
  | none => False
  | some h => h < s.len

instance (s : Store) (o : Option Nat) : Decidable (validHandle s o) :=
  match o with
  | none => isFalse (fun h => h)
  | some h => Nat.decLt h s.len

/-- The byte sequence reachable through a `shared_ptr` (the view exposed by
`data()` and `size()`).  Null pointers yield the empty sequence; every
theorem that depends on this case carries a `validHandle` hypothesis. -/
def handleContents (s : Store) (o : Option Nat) : byte_vec :=
  match o with
  | none => []
  | some h => s.getBlock h

/-- `std::vector::resize(sz)`: keep the first `sz` bytes, zero-fill any
newly added bytes. -/
def vecResize (bv : byte_vec) (sz : Nat) : byte_vec :=
  bv.take sz ++ List.replicate (sz - bv.length) 0

/-- `std::copy(src, src + src.length, dst + off)`: overwrite `src.length`
bytes of `bv` starting at offset `off`. -/
def writeBytesAt (bv : byte_vec) (off : Nat) (src : byte_vec) : byte_vec :=
  bv.take off ++ src ++ bv.drop (off + src.length)

/-- `class mutable_shared_buffer`: its single data member
`std::shared_ptr<byte_vec> m_data`. -/
structure mutable_shared_buffer where
  m_data : Option Nat
deriving DecidableEq

/-- `class const_shared_buffer`: its single data member
`std::shared_ptr<byte_vec> m_data`. -/
structure const_shared_buffer where
  m_data : Option Nat
deriving DecidableEq

namespace mutable_shared_buffer

/-- `mutable_shared_buffer()`: `m_data{std::make_shared<byte_vec>(size_type(0))}`. -/
def mkDefault (s : Store) : Store × mutable_shared_buffer :=
  ((s.alloc []).1, ⟨some (s.alloc []).2⟩)

/-- The copying constructors (`std::span`, `std::byte*` + size, arbitrary
pointer + count, `void*` + size, iterator pair): all allocate a fresh
vector holding a copy of the source bytes. -/
def mkCopy (s : Store) (bytes : byte_vec) : Store × mutable_shared_buffer :=
  ((s.alloc bytes).1, ⟨some (s.alloc bytes).2⟩)

/-- `mutable_shared_buffer(byte_vec&& bv)`: allocate, then move the vector
contents in. -/
def mkMoveVec (s : Store) (bv : byte_vec) : Store × mutable_shared_buffer :=
  ((s.alloc bv).1, ⟨some (s.alloc bv).2⟩)

/-- `mutable_shared_buffer(size_type sz)`: a fresh zero-filled vector of
size `sz`. -/
def mkSized (s : Store) (sz : Nat) : Store × mutable_shared_buffer :=
  ((s.alloc (List.replicate sz 0)).1, ⟨some (s.alloc (List.replicate sz 0)).2⟩)

/-- Defaulted copy construction / copy assignment: the `shared_ptr` member
is copied, so the new object aliases the same block. -/
def copy (m : mutable_shared_buffer) : mutable_shared_buffer := ⟨m.m_data⟩

/-- Defaulted move construction / move assignment: the `shared_ptr` member
is moved, leaving the source `shared_ptr` null.  Returns (target, source
after the move). -/
def moveConstruct (m : mutable_shared_buffer) :
    mutable_shared_buffer × mutable_shared_buffer :=
  (⟨m.m_data⟩, ⟨none⟩)

/-- The byte sequence visible through `data()` and `size()`. -/
def contents (s : Store) (m : mutable_shared_buffer) : byte_vec :=
  handleContents s m.m_data

/-- `size()`: `m_data->size()`. -/
def size (s : Store) (m : mutable_shared_buffer) : Nat :=
  (m.contents s).length

/-- `empty()`: `m_data->empty()`. -/
def empty (s : Store) (m : mutable_shared_buffer) : Bool :=
  (m.contents s).isEmpty

/-- `get_byte_vec()`: a reference to the owned vector itself; reading
through it sees exactly the owned byte sequence. -/
def get_byte_vec (s : Store) (m : mutable_shared_buffer) : byte_vec :=
  handleContents s m.m_data

/-- A mutation applied through the reference `get_byte_vec()` returns:
element writes, `resize`, `clear`, `push_back`, ... are all replacements
of the owned vector value by a function of its old value. -/
def modify_byte_vec (s : Store) (m : mutable_shared_buffer)
    (f : byte_vec → byte_vec) : Store :=
  match m.m_data with
  | none => s
  | some h => s.setBlock h (f (s.getBlock h))

/-- `clear()`: `m_data->clear()`. -/
def clear (s : Store) (m : mutable_shared_buffer) : Store :=
  match m.m_data with
  | none => s
  | some h => s.setBlock h []

/-- `resize(sz)`: `m_data->resize(sz)`. -/
def resize (s : Store) (m : mutable_shared_buffer) (sz : Nat) : Store :=
  match m.m_data with
  | none => s
  | some h => s.setBlock h (vecResize (s.getBlock h) sz)

/-- A single byte written through the pointer returned by `data()`. -/
def writeByte (s : Store) (m : mutable_shared_buffer) (i : Nat) (b : Byte) :
    Store :=
  match m.m_data with
  | none => s
  | some h => s.setBlock h ((s.getBlock h).set i b)

/-- `swap(rhs)`: exchange the two `m_data` members (the handles), touching
no storage block.  The free function `swap(lhs, rhs)` delegates here. -/
def swap (lhs rhs : mutable_shared_buffer) :
    mutable_shared_buffer × mutable_shared_buffer :=
  (⟨rhs.m_data⟩, ⟨lhs.m_data⟩)

/-- `append(const std::byte* buf, std::size_t sz)`:
`old_sz = size(); resize(old_sz + sz); std::copy(buf, buf+sz, data()+old_sz);
return *this;`.  Every other `append` overload reduces to this one. -/
def append (s : Store) (m : mutable_shared_buffer) (buf : byte_vec) :
    Store × mutable_shared_buffer :=
  let old_sz := m.size s
  let s1 := m.resize s (old_sz + buf.length)
  let s2 := match m.m_data with
    | none => s1
    | some h => s1.setBlock h (writeBytesAt (s1.getBlock h) old_sz buf)
  (s2, m)

/-- `append(std::byte b)`: `append(&b, 1)`. -/
def appendByte (s : Store) (m : mutable_shared_buffer) (b : Byte) :
    Store × mutable_shared_buffer :=
  m.append s [b]

/-- `append(const mutable_shared_buffer& rhs)`:
`append(rhs.data(), rhs.size())`. -/
def appendBuf (s : Store) (m rhs : mutable_shared_buffer) :
    Store × mutable_shared_buffer :=
  m.append s (rhs.contents s)

/-- `operator==`: `*m_data == *rhs.m_data` (vector equality). -/
def beq (s : Store) (lhs rhs : mutable_shared_buffer) : Bool :=
  handleContents s lhs.m_data == handleContents s rhs.m_data

end mutable_shared_buffer

/-- Free function `swap(lhs, rhs)`: `lhs.swap(rhs)`. -/
def swapBuffers (lhs rhs : mutable_shared_buffer) :
    mutable_shared_buffer × mutable_shared_buffer :=
  lhs.swap rhs

namespace const_shared_buffer

/-- The copying constructors (`std::span`, `std::byte*` + size, arbitrary
pointer + count, `void*` + size, iterator pair): allocate a fresh vector
holding a copy of the source bytes. -/
def mkCopy (s : Store) (bytes : byte_vec) : Store × const_shared_buffer :=
  ((s.alloc bytes).1, ⟨some (s.alloc bytes).2⟩)

/-- `const_shared_buffer(byte_vec&& bv)`: allocate, then move the vector
contents in. -/
def mkMoveVec (s : Store) (bv : byte_vec) : Store × const_shared_buffer :=
  ((s.alloc bv).1, ⟨some (s.alloc bv).2⟩)

/-- Defaulted copy construction: the `shared_ptr` member is copied, so the
new object aliases the same block. -/
def copy (c : const_shared_buffer) : const_shared_buffer := ⟨c.m_data⟩

/-- Defaulted move construction: the `shared_ptr` member is moved, leaving
the source `shared_ptr` null.  Returns (target, source after the move). -/
def moveConstruct (c : const_shared_buffer) :
    const_shared_buffer × const_shared_buffer :=
  (⟨c.m_data⟩, ⟨none⟩)

/-- The byte sequence visible through `data()` and `size()`. -/
def contents (s : Store) (c : const_shared_buffer) : byte_vec :=
  handleContents s c.m_data

/-- `size()`: `m_data->size()`. -/
def size (s : Store) (c : const_shared_buffer) : Nat :=
  (c.contents s).length

/-- `empty()`: `(*m_data).empty()`. -/
def empty (s : Store) (c : const_shared_buffer) : Bool :=
  (c.contents s).isEmpty

/-- `const_shared_buffer(const mutable_shared_buffer& rhs)`:
`const_shared_buffer(rhs.data(), rhs.size())`, i.e. a fresh copy of the
source bytes. -/
def fromMutableCopy (s : Store) (rhs : mutable_shared_buffer) :
    Store × const_shared_buffer :=
  mkCopy s (rhs.contents s)

/-- `const_shared_buffer(mutable_shared_buffer&& rhs)`:
`m_data(std::move(rhs.m_data))` then
`rhs.m_data = std::make_shared<byte_vec>(0)`.
Returns (store, adopting buffer, source after adoption). -/
def fromMutableMove (s : Store) (rhs : mutable_shared_buffer) :
    Store × const_shared_buffer × mutable_shared_buffer :=
  ((s.alloc []).1, ⟨rhs.m_data⟩, ⟨some (s.alloc []).2⟩)

/-- `operator==`: `*m_data == *rhs.m_data` (vector equality). -/
def beq (s : Store) (lhs rhs : const_shared_buffer) : Bool :=
  handleContents s lhs.m_data == handleContents s rhs.m_data

end const_shared_buffer

/-- Free `operator==(const const_shared_buffer&, const mutable_shared_buffer&)`:
`*lhs.m_data == *rhs.m_data`. -/
def eq_const_mutable (s : Store) (lhs : const_shared_buffer)
    (rhs : mutable_shared_buffer) : Bool :=
  handleContents s lhs.m_data == handleContents s rhs.m_data

/-- Free `operator==(const mutable_shared_buffer&, const const_shared_buffer&)`:
`*lhs.m_data == *rhs.m_data`. -/
def eq_mutable_const (s : Store) (lhs : mutable_shared_buffer)
    (rhs : const_shared_buffer) : Bool :=
  handleContents s lhs.m_data == handleContents s rhs.m_data

/-! Section: The Byte Codec

The codec functions `append_val` and `extract_val` live in
`serialize/extract_append.hpp`, which is not part of this source slice;
only their caller (the example program) is.  They are therefore modelled
from the spec, section 4.1. -/

/-- Modelled from the spec: the byte-order parameter of the Byte Codec
(`serialize/extract_append.hpp`, missing from this slice): big-endian,
little-endian, or host-native. -/
inductive ByteOrder where
  | big : ByteOrder
  | little : ByteOrder
  | native : ByteOrder
deriving DecidableEq

/-- Modelled from the spec: "native order resolves to whatever the host
uses at the point of call, while big and little are absolute".  The host
order is the `hostLittle` parameter; the result tells whether the resolved
serialized layout is little-endian. -/
def resolveLittle (hostLittle : Bool) (o : ByteOrder) : Bool :=
  match o with
  | ByteOrder.big => false
  | ByteOrder.little => true
  | ByteOrder.native => hostLittle

/-- Big-endian byte layout of `v`, width `w` bytes, most significant byte
first. -/
def beBytes : Nat → Nat → List Byte
  | 0, _ => []
  | w + 1, v => beBytes w (v / 256) ++ [v % 256]

/-- Big-endian decoding of a byte list. -/
def beDecode (bs : List Byte) : Nat :=
  bs.foldl (fun a b => a * 256 + b) 0

/-- Modelled from the spec: the serialized `w`-byte layout of the unsigned
integer `v` in the resolved byte order. -/
def encodeVal (hostLittle : Bool) (o : ByteOrder) (w v : Nat) : List Byte :=
  if resolveLittle hostLittle o then (beBytes w v).reverse else beBytes w v

/-- Modelled from the spec: the unsigned integer read back from a `w`-byte
layout in the resolved byte order. -/
def decodeVal (hostLittle : Bool) (o : ByteOrder) (bs : List Byte) : Nat :=
  if resolveLittle hostLittle o then beDecode bs.reverse else beDecode bs

/-- Modelled from the spec: `append_val<order, T>(cursor, v)` serializes
`v` into `sizeof(T) = w` bytes of the backing buffer starting at cursor
position `pos` and returns the number of bytes written; the caller
advances the cursor by that count. -/
def append_val (hostLittle : Bool) (o : ByteOrder) (w : Nat) (buf : byte_vec)
    (pos v : Nat) : byte_vec × Nat :=
  (writeBytesAt buf pos (encodeVal hostLittle o w v), w)

/-- Modelled from the spec: `extract_val<order, T>(cursor)` interprets the
`sizeof(T) = w` bytes at cursor position `pos` per the resolved order and
returns the reconstructed integer together with the number of bytes
consumed; the caller advances the cursor by that count. -/
def extract_val (hostLittle : Bool) (o : ByteOrder) (w : Nat) (buf : byte_vec)
    (pos : Nat) : Nat × Nat :=
  (decodeVal hostLittle o ((buf.drop pos).take w), w)

/-! Section: Store lemmas -/

@[simp]
theorem validHandle_none (s : Store) : ¬ validHandle s none := fun h => h

@[simp]
theorem validHandle_some (s : Store) (h : Nat) :
    validHandle s (some h) ↔ h < s.len := Iff.rfl

@[simp]
theorem len_setBlock (s : Store) (h : Nat) (bv : byte_vec) :
    (s.setBlock h bv).len = s.len := rfl

@[simp]
theorem len_alloc (s : Store) (bv : byte_vec) :
    (s.alloc bv).1.len = s.len + 1 := rfl

@[simp]
theorem getBlock_setBlock_self (s : Store) (h : Nat) (bv : byte_vec) :
    (s.setBlock h bv).getBlock h = bv := by
  simp [Store.setBlock, Store.getBlock, setFun]

theorem getBlock_setBlock_ne {s : Store} {h i : Nat} {bv : byte_vec}
    (hne : i ≠ h) : (s.setBlock h bv).getBlock i = s.getBlock i := by
  simp [Store.setBlock, Store.getBlock, setFun, hne]

@[simp]
theorem getBlock_alloc_self (s : Store) (bv : byte_vec) :
    (s.alloc bv).1.getBlock (s.alloc bv).2 = bv := by
  simp [Store.alloc, Store.getBlock, setFun]

theorem getBlock_alloc_ne {s : Store} {bv : byte_vec} {i : Nat}
    (hne : i ≠ s.len) : (s.alloc bv).1.getBlock i = s.getBlock i := by
  simp [Store.alloc, Store.getBlock, setFun, hne]

/-! Section: Vector operation lemmas -/

theorem vecResize_grow (bv : byte_vec) (n : Nat) :
    vecResize bv (bv.length + n) = bv ++ List.replicate n 0 := by
  have h1 : bv.take (bv.length + n) = bv :=
    List.take_of_length_le (Nat.le_add_right _ _)
  have h2 : bv.length + n - bv.length = n := by omega
  rw [vecResize, h1, h2]

theorem writeBytesAt_at_end (bv src : byte_vec) :
    writeBytesAt (bv ++ List.replicate src.length 0) bv.length src =
      bv ++ src := by
  rw [writeBytesAt, List.take_left]
  have hlen : (bv ++ List.replicate src.length 0).length =
      bv.length + src.length := by simp
  rw [← hlen, List.drop_length, List.append_nil]

theorem drop_append_of_length {l1 : List Byte} {n : Nat}
    (h : l1.length = n) (l2 : List Byte) : (l1 ++ l2).drop n = l2 := by
  subst h
  exact List.drop_left _ _

theorem writeBytesAt_recover (bv src : byte_vec) (pos : Nat)
    (hp : pos ≤ bv.length) :
    ((writeBytesAt bv pos src).drop pos).take src.length = src := by
  have h1 : (bv.take pos).length = pos := by
    simp [List.length_take, Nat.min_eq_left hp]
  rw [writeBytesAt, List.append_assoc, drop_append_of_length h1,
    List.take_left]

/-! Section: Codec lemmas -/

theorem beBytes_length (w v : Nat) : (beBytes w v).length = w := by
  induction w generalizing v with
  | zero => rfl
  | succ w ih => simp [beBytes, ih]

theorem beDecode_append (bs : List Byte) (b : Byte) :
    beDecode (bs ++ [b]) = beDecode bs * 256 + b := by
  simp [beDecode, List.foldl_append]

theorem beDecode_beBytes (w v : Nat) (hv : v < 256 ^ w) :
    beDecode (beBytes w v) = v := by
  induction w generalizing v with
  | zero =>
      simp only [beBytes, beDecode, List.foldl_nil]
      simp only [pow_zero] at hv
      omega
  | succ w ih =>
      have hdiv : v / 256 < 256 ^ w := by
        have h2 : v < 256 ^ w * 256 := by rw [← pow_succ]; exact hv
        exact (Nat.div_lt_iff_lt_mul (by norm_num)).2 h2
      rw [beBytes, beDecode_append, ih _ hdiv]
      have := Nat.div_add_mod v 256
      omega

theorem encodeVal_length (hostLittle : Bool) (o : ByteOrder) (w v : Nat) :
    (encodeVal hostLittle o w v).length = w := by
  unfold encodeVal
  by_cases hl : resolveLittle hostLittle o <;>
    simp [hl, beBytes_length]

theorem decodeVal_encodeVal (hostLittle : Bool) (o : ByteOrder) (w v : Nat)
    (hv : v < 256 ^ w) :
    decodeVal hostLittle o (encodeVal hostLittle o w v) = v := by
  unfold decodeVal encodeVal
  by_cases hl : resolveLittle hostLittle o <;>
    simp [hl, List.reverse_reverse, beDecode_beBytes w v hv]

/-! Section: Buffer operation lemmas -/

theorem contents_eq_getBlock (s : Store) (m : mutable_shared_buffer)
    {h : Nat} (hm : m.m_data = some h) : m.contents s = s.getBlock h := by
  simp [mutable_shared_buffer.contents, handleContents, hm]

theorem ccontents_eq_getBlock (s : Store) (c : const_shared_buffer)
    {h : Nat} (hc : c.m_data = some h) : c.contents s = s.getBlock h := by
  simp [const_shared_buffer.contents, handleContents, hc]

@[simp]
theorem append_snd (s : Store) (m : mutable_shared_buffer)
    (bytes : byte_vec) : (m.append s bytes).2 = m := by
  cases hmd : m.m_data <;>
    simp [mutable_shared_buffer.append, hmd]

@[simp]
theorem append_store_len (s : Store) (m : mutable_shared_buffer)
    (bytes : byte_vec) : (m.append s bytes).1.len = s.len := by
  cases hmd : m.m_data <;>
    simp [mutable_shared_buffer.append, mutable_shared_buffer.resize, hmd]

@[simp]
theorem resize_store_len (s : Store) (m : mutable_shared_buffer)
    (sz : Nat) : (m.resize s sz).len = s.len := by
  cases hmd : m.m_data <;> simp [mutable_shared_buffer.resize, hmd]

@[simp]
theorem clear_store_len (s : Store) (m : mutable_shared_buffer) :
    (m.clear s).len = s.len := by
  cases hmd : m.m_data <;> simp [mutable_shared_buffer.clear, hmd]

@[simp]
theorem writeByte_store_len (s : Store) (m : mutable_shared_buffer)
    (i : Nat) (b : Byte) : (m.writeByte s i b).len = s.len := by
  cases hmd : m.m_data <;> simp [mutable_shared_buffer.writeByte, hmd]

@[simp]
theorem modify_store_len (s : Store) (m : mutable_shared_buffer)
    (f : byte_vec → byte_vec) : (m.modify_byte_vec s f).len = s.len := by
  cases hmd : m.m_data <;> simp [mutable_shared_buffer.modify_byte_vec, hmd]

theorem append_getBlock_self (s : Store) (m : mutable_shared_buffer)
    {h : Nat} (hm : m.m_data = some h) (bytes : byte_vec) :
    (m.append s bytes).1.getBlock h = s.getBlock h ++ bytes := by
  simp only [mutable_shared_buffer.append, mutable_shared_buffer.size,
    mutable_shared_buffer.contents, handleContents, hm,
    mutable_shared_buffer.resize, getBlock_setBlock_self, vecResize_grow,
    writeBytesAt_at_end]

theorem append_getBlock_other (s : Store) (m : mutable_shared_buffer)
    {h : Nat} (hm : m.m_data = some h) (bytes : byte_vec) {i : Nat}
    (hi : i ≠ h) :
    (m.append s bytes).1.getBlock i = s.getBlock i := by
  simp only [mutable_shared_buffer.append, mutable_shared_buffer.size,
    mutable_shared_buffer.contents, handleContents, hm,
    mutable_shared_buffer.resize, getBlock_setBlock_ne hi]

theorem resize_getBlock_self (s : Store) (m : mutable_shared_buffer)
    {h : Nat} (hm : m.m_data = some h) (sz : Nat) :
    (m.resize s sz).getBlock h = vecResize (s.getBlock h) sz := by
  simp [mutable_shared_buffer.resize, hm]

theorem resize_getBlock_other (s : Store) (m : mutable_shared_buffer)
    {h : Nat} (hm : m.m_data = some h) (sz : Nat) {i : Nat} (hi : i ≠ h) :
    (m.resize s sz).getBlock i = s.getBlock i := by
  simp [mutable_shared_buffer.resize, hm, getBlock_setBlock_ne hi]

theorem clear_getBlock_self (s : Store) (m : mutable_shared_buffer)
    {h : Nat} (hm : m.m_data = some h) :
    (m.clear s).getBlock h = [] := by
  simp [mutable_shared_buffer.clear, hm]

theorem clear_getBlock_other (s : Store) (m : mutable_shared_buffer)
    {h : Nat} (hm : m.m_data = some h) {i : Nat} (hi : i ≠ h) :
    (m.clear s).getBlock i = s.getBlock i := by
  simp [mutable_shared_buffer.clear, hm, getBlock_setBlock_ne hi]

theorem writeByte_getBlock_self (s : Store) (m : mutable_shared_buffer)
    {h : Nat} (hm : m.m_data = some h) (i : Nat) (b : Byte) :
    (m.writeByte s i b).getBlock h = (s.getBlock h).set i b := by
  simp [mutable_shared_buffer.writeByte, hm]

theorem writeByte_getBlock_other (s : Store) (m : mutable_shared_buffer)
    {h : Nat} (hm : m.m_data = some h) (i : Nat) (b : Byte) {j : Nat}
    (hj : j ≠ h) :
    (m.writeByte s i b).getBlock j = s.getBlock j := by
  simp [mutable_shared_buffer.writeByte, hm, getBlock_setBlock_ne hj]

theorem modify_getBlock_self (s : Store) (m : mutable_shared_buffer)
    {h : Nat} (hm : m.m_data = some h) (f : byte_vec → byte_vec) :
    (m.modify_byte_vec s f).getBlock h = f (s.getBlock h) := by
  simp [mutable_shared_buffer.modify_byte_vec, hm]

theorem modify_getBlock_other (s : Store) (m : mutable_shared_buffer)
    {h : Nat} (hm : m.m_data = some h) (f : byte_vec → byte_vec) {i : Nat}
    (hi : i ≠ h) :
    (m.modify_byte_vec s f).getBlock i = s.getBlock i := by
  simp [mutable_shared_buffer.modify_byte_vec, hm, getBlock_setBlock_ne hi]

theorem byte_vec_beq_comm (x y : byte_vec) : (x == y) = (y == x) := by
  by_cases hxy : x = y
  · subst hxy; rfl
  · have h1 : (x == y) = false := by
      simp [beq_eq_false_iff_ne, hxy]
    have h2 : (y == x) = false := by
      simp [beq_eq_false_iff_ne, Ne.symm hxy]
    rw [h1, h2]

/-! Section: Concrete stores used to instantiate the theorems -/

/-- A one-block store: block 0 holds the bytes 7, 8. -/
def stEx : Store := ⟨1, fun _ => [7, 8]⟩

/-- A one-block store: block 0 holds the single byte 1. -/
def stOne : Store := ⟨1, fun _ => [1]⟩

/-- A one-block store: block 0 is empty. -/
def stNil : Store := ⟨1, fun _ => []⟩

/-! Section: Claims -/

/-- Claim C1: for every mutable buffer B with content S, constructing a
const buffer by adopting B (move construction of `const_shared_buffer`
from `mutable_shared_buffer`) yields a const buffer whose bytes equal S;
afterwards B is empty (`size() == 0`) and still refers to a valid, freshly
allocated empty storage block (its new handle is the previously
unallocated block `s.len`, which holds no bytes). -/
theorem C1_adopt_transfer (s : Store) (m : mutable_shared_buffer) (h : Nat)
    (hm : m.m_data = some h) (hv : h < s.len) :
    (const_shared_buffer.fromMutableMove s m).2.1.contents
        (const_shared_buffer.fromMutableMove s m).1 = m.contents s
    ∧ (const_shared_buffer.fromMutableMove s m).2.2.size
        (const_shared_buffer.fromMutableMove s m).1 = 0
    ∧ validHandle (const_shared_buffer.fromMutableMove s m).1
        (const_shared_buffer.fromMutableMove s m).2.2.m_data
    ∧ (const_shared_buffer.fromMutableMove s m).2.2.m_data = some s.len
    ∧ (const_shared_buffer.fromMutableMove s m).1.getBlock s.len = [] := by
  have hne : h ≠ s.len := Nat.ne_of_lt hv
  refine ⟨?_, ?_, ?_, rfl, ?_⟩
  · show handleContents ((s.alloc []).1) m.m_data = m.contents s
    rw [mutable_shared_buffer.contents]
    simp only [handleContents, hm, getBlock_alloc_ne hne]
  · show (handleContents (s.alloc []).1 (some (s.alloc []).2)).length = 0
    simp [handleContents]
  · show (s.alloc []).2 < (s.alloc []).1.len
    simp [Store.alloc]
  · exact getBlock_alloc_self s []

theorem C1_adopt_transfer_witness :
    (mutable_shared_buffer.mk (some 0)).m_data = some 0
    ∧ 0 < stEx.len
    ∧ ((const_shared_buffer.fromMutableMove stEx
            (mutable_shared_buffer.mk (some 0))).2.1.contents
          (const_shared_buffer.fromMutableMove stEx
            (mutable_shared_buffer.mk (some 0))).1 =
        (mutable_shared_buffer.mk (some 0)).contents stEx
      ∧ (const_shared_buffer.fromMutableMove stEx
            (mutable_shared_buffer.mk (some 0))).2.2.size
          (const_shared_buffer.fromMutableMove stEx
            (mutable_shared_buffer.mk (some 0))).1 = 0
      ∧ validHandle (const_shared_buffer.fromMutableMove stEx
            (mutable_shared_buffer.mk (some 0))).1
          (const_shared_buffer.fromMutableMove stEx
            (mutable_shared_buffer.mk (some 0))).2.2.m_data
      ∧ (const_shared_buffer.fromMutableMove stEx
            (mutable_shared_buffer.mk (some 0))).2.2.m_data = some stEx.len
      ∧ (const_shared_buffer.fromMutableMove stEx
            (mutable_shared_buffer.mk (some 0))).1.getBlock stEx.len = []) :=
  ⟨rfl, by decide,
    C1_adopt_transfer stEx (mutable_shared_buffer.mk (some 0)) 0 rfl
      (by decide)⟩

/-- Claim C5: byte-codec round trip.  For every host byte order, every
requested byte order (big, little, native), every width `w`, every backing
buffer with at least `w` bytes of space at cursor position `pos`, and
every value representable in `w` bytes, reading at the cursor immediately
after writing the value at the same cursor returns the original value,
and both the write and the read report exactly `w = sizeof(value)` bytes
written/consumed, the amount by which the cursor advances. -/
theorem C5_codec_roundtrip (hostLittle : Bool) (o : ByteOrder) (w : Nat)
    (buf : byte_vec) (pos v : Nat) (hv : v < 256 ^ w)
    (hp : pos + w ≤ buf.length) :
    (extract_val hostLittle o w
        (append_val hostLittle o w buf pos v).1 pos).1 = v
    ∧ (append_val hostLittle o w buf pos v).2 = w
    ∧ (extract_val hostLittle o w
        (append_val hostLittle o w buf pos v).1 pos).2 = w := by
  refine ⟨?_, rfl, rfl⟩
  simp only [extract_val, append_val]
  set enc := encodeVal hostLittle o w v with henc
  have hlen : enc.length = w := encodeVal_length hostLittle o w v
  rw [← hlen, writeBytesAt_recover buf enc pos (by omega), henc]
  exact decodeVal_encodeVal hostLittle o w v hv

theorem C5_codec_roundtrip_witness :
    (4660 : Nat) < 256 ^ 2
    ∧ 1 + 2 ≤ (List.replicate 4 0 : byte_vec).length
    ∧ ((extract_val true ByteOrder.big 2
          (append_val true ByteOrder.big 2 (List.replicate 4 0) 1 4660).1
          1).1 = 4660
      ∧ (append_val true ByteOrder.big 2 (List.replicate 4 0) 1 4660).2 = 2
      ∧ (extract_val true ByteOrder.big 2
          (append_val true ByteOrder.big 2 (List.replicate 4 0) 1 4660).1
          1).2 = 2) :=
  ⟨by decide, by decide,
    C5_codec_roundtrip true ByteOrder.big 2 (List.replicate 4 0) 1 4660
      (by decide) (by decide)⟩

/-- Claim C7: `swap(A, B)` exchanges the two buffers contents (afterwards
A holds the prior bytes and size of B and B those of A), it does so in the
unchanged store (only the two handles are exchanged, no storage block is
touched and no byte is copied), and swap is an involution: swapping twice
restores both objects.  The free function `swap` delegates to the member
swap. -/
theorem C7_swap_involution (s : Store) (a b : mutable_shared_buffer) :
    (a.swap b).1.contents s = b.contents s
    ∧ (a.swap b).2.contents s = a.contents s
    ∧ (a.swap b).1.size s = b.size s
    ∧ (a.swap b).2.size s = a.size s
    ∧ (a.swap b).1.swap (a.swap b).2 = (a, b)
    ∧ swapBuffers a b = a.swap b :=
  ⟨rfl, rfl, rfl, rfl, rfl, rfl⟩

/-- Claim C8: cross-type equality.  `m == c` returns true exactly when the
two byte contents match (same size and identical bytes in order), and the
comparison is symmetric: `operator==(mutable, const)` and
`operator==(const, mutable)` agree on every pair. -/
theorem C8_cross_type_equality (s : Store) (m : mutable_shared_buffer)
    (c : const_shared_buffer) :
    (eq_mutable_const s m c = true ↔
      m.size s = c.size s ∧ m.contents s = c.contents s)
    ∧ eq_mutable_const s m c = eq_const_mutable s c m := by
  constructor
  · simp only [eq_mutable_const, beq_iff_eq]
    constructor
    · intro heq
      refine ⟨?_, heq⟩
      show (handleContents s m.m_data).length =
        (handleContents s c.m_data).length
      rw [heq]
    · intro hand
      exact hand.2
  · exact byte_vec_beq_comm _ _

/-- Claim C2 is false on the code: take the store whose block 0 holds the
byte 1, let M be a buffer over block 0 and A a copy of M (same handle),
and adopt M into a const buffer C.  C observes [1]; appending the byte 2
through A afterwards makes C observe [1, 2] — a mutation through the
pre-adoption alias A does change the bytes observed through the
adopt-constructed C, because the adoption hands the storage block of M to C
while A keeps pointing at it. -/
theorem C2_counterexample :
    (const_shared_buffer.fromMutableMove stOne
        (mutable_shared_buffer.mk (some 0))).2.1.contents
      (const_shared_buffer.fromMutableMove stOne
        (mutable_shared_buffer.mk (some 0))).1 = [1]
    ∧ (const_shared_buffer.fromMutableMove stOne
        (mutable_shared_buffer.mk (some 0))).2.1.contents
      (((mutable_shared_buffer.mk (some 0)).copy.append
          (const_shared_buffer.fromMutableMove stOne
            (mutable_shared_buffer.mk (some 0))).1 [2]).1) = [1, 2] := by
  constructor
  · rfl
  · rfl

/-- Claim C2, amended: after a const buffer C is adopt-constructed from M,
no mutation performed through the emptied source M itself (append, resize,
clear, a write through `data()`) changes the bytes observed through C,
since the adoption leaves M on a fresh storage block; but a pre-adoption
copy-alias A of M still holds the very handle C adopted, so mutations
through A are visible through C (appending bytes through A extends the
content C observes). -/
theorem C2_adopt_alias_amended (s : Store) (m a : mutable_shared_buffer)
    (h : Nat) (hm : m.m_data = some h) (hv : h < s.len) (ha : a = m.copy)
    (bytes : byte_vec) (sz i : Nat) (b : Byte) :
    (const_shared_buffer.fromMutableMove s m).2.1.contents
        ((const_shared_buffer.fromMutableMove s m).2.2.append
          (const_shared_buffer.fromMutableMove s m).1 bytes).1 =
      (const_shared_buffer.fromMutableMove s m).2.1.contents
        (const_shared_buffer.fromMutableMove s m).1
    ∧ (const_shared_buffer.fromMutableMove s m).2.1.contents
        ((const_shared_buffer.fromMutableMove s m).2.2.resize
          (const_shared_buffer.fromMutableMove s m).1 sz) =
      (const_shared_buffer.fromMutableMove s m).2.1.contents
        (const_shared_buffer.fromMutableMove s m).1
    ∧ (const_shared_buffer.fromMutableMove s m).2.1.contents
        ((const_shared_buffer.fromMutableMove s m).2.2.clear
          (const_shared_buffer.fromMutableMove s m).1) =
      (const_shared_buffer.fromMutableMove s m).2.1.contents
        (const_shared_buffer.fromMutableMove s m).1
    ∧ (const_shared_buffer.fromMutableMove s m).2.1.contents
        ((const_shared_buffer.fromMutableMove s m).2.2.writeByte
          (const_shared_buffer.fromMutableMove s m).1 i b) =
      (const_shared_buffer.fromMutableMove s m).2.1.contents
        (const_shared_buffer.fromMutableMove s m).1
    ∧ a.m_data = (const_shared_buffer.fromMutableMove s m).2.1.m_data
    ∧ (const_shared_buffer.fromMutableMove s m).2.1.contents
        (a.append (const_shared_buffer.fromMutableMove s m).1 bytes).1 =
      (const_shared_buffer.fromMutableMove s m).2.1.contents
        (const_shared_buffer.fromMutableMove s m).1 ++ bytes := by
  have hne : h ≠ s.len := Nat.ne_of_lt hv
  have hc : (const_shared_buffer.fromMutableMove s m).2.1.m_data =
      some h := hm
  have hsrc : (const_shared_buffer.fromMutableMove s m).2.2.m_data =
      some s.len := rfl
  subst ha
  have hA : (m.copy).m_data = some h := hm
  refine ⟨?_, ?_, ?_, ?_, rfl, ?_⟩
  · rw [ccontents_eq_getBlock _ _ hc,
      append_getBlock_other _ _ hsrc bytes hne,
      ← ccontents_eq_getBlock _ _ hc]
  · rw [ccontents_eq_getBlock _ _ hc,
      resize_getBlock_other _ _ hsrc sz hne,
      ← ccontents_eq_getBlock _ _ hc]
  · rw [ccontents_eq_getBlock _ _ hc,
      clear_getBlock_other _ _ hsrc hne,
      ← ccontents_eq_getBlock _ _ hc]
  · rw [ccontents_eq_getBlock _ _ hc,
      writeByte_getBlock_other _ _ hsrc i b hne,
      ← ccontents_eq_getBlock _ _ hc]
  · rw [ccontents_eq_getBlock _ _ hc,
      append_getBlock_self _ (m.copy) hA bytes,
      ← ccontents_eq_getBlock _ _ hc]

theorem C2_adopt_alias_amended_witness :
    (mutable_shared_buffer.mk (some 0)).m_data = some 0
    ∧ 0 < stOne.len
    ∧ mutable_shared_buffer.copy (mutable_shared_buffer.mk (some 0)) =
      (mutable_shared_buffer.mk (some 0)).copy
    ∧ ((const_shared_buffer.fromMutableMove stOne
          (mutable_shared_buffer.mk (some 0))).2.1.contents
        ((const_shared_buffer.fromMutableMove stOne
            (mutable_shared_buffer.mk (some 0))).2.2.append
          (const_shared_buffer.fromMutableMove stOne
            (mutable_shared_buffer.mk (some 0))).1 [2]).1 = [1]
      ∧ (const_shared_buffer.fromMutableMove stOne
          (mutable_shared_buffer.mk (some 0))).2.1.contents
        ((const_shared_buffer.fromMutableMove stOne
            (mutable_shared_buffer.mk (some 0))).2.2.resize
          (const_shared_buffer.fromMutableMove stOne
            (mutable_shared_buffer.mk (some 0))).1 3) = [1]
      ∧ (const_shared_buffer.fromMutableMove stOne
          (mutable_shared_buffer.mk (some 0))).2.1.contents
        ((const_shared_buffer.fromMutableMove stOne
            (mutable_shared_buffer.mk (some 0))).2.2.clear
          (const_shared_buffer.fromMutableMove stOne
            (mutable_shared_buffer.mk (some 0))).1) = [1]
      ∧ (const_shared_buffer.fromMutableMove stOne
          (mutable_shared_buffer.mk (some 0))).2.1.contents
        ((const_shared_buffer.fromMutableMove stOne
            (mutable_shared_buffer.mk (some 0))).2.2.writeByte
          (const_shared_buffer.fromMutableMove stOne
            (mutable_shared_buffer.mk (some 0))).1 0 4) = [1]
      ∧ (mutable_shared_buffer.copy
          (mutable_shared_buffer.mk (some 0))).m_data =
        (const_shared_buffer.fromMutableMove stOne
          (mutable_shared_buffer.mk (some 0))).2.1.m_data
      ∧ (const_shared_buffer.fromMutableMove stOne
          (mutable_shared_buffer.mk (some 0))).2.1.contents
        ((mutable_shared_buffer.copy
            (mutable_shared_buffer.mk (some 0))).append
          (const_shared_buffer.fromMutableMove stOne
            (mutable_shared_buffer.mk (some 0))).1 [2]).1 = [1, 2]) :=
  ⟨rfl, by decide, rfl,
    C2_adopt_alias_amended stOne (mutable_shared_buffer.mk (some 0))
      (mutable_shared_buffer.copy (mutable_shared_buffer.mk (some 0))) 0
      rfl (by decide) rfl [2] 3 0 4⟩

/-- Claim C3 is false on the code: the defaulted move constructor of
`mutable_shared_buffer` moves the `shared_ptr` member, which leaves the
moved-from object holding a null handle; that object no longer refers to
any storage block, so invariant I1 does not hold for it (calling `size()`
etc. on it would dereference a null pointer).  Concretely: a buffer over
block 0 of a one-block store is valid, but after it is moved from it is
not. -/
theorem C3_counterexample :
    validHandle stOne (mutable_shared_buffer.mk (some 0)).m_data
    ∧ ¬ validHandle stOne
      ((mutable_shared_buffer.mk (some 0)).moveConstruct).2.m_data := by
  constructor
  · decide
  · decide

/-- Claim C3, amended: invariant I1 is established by every constructor
and preserved by copy construction/assignment, swap, every mutating
operation, and adoption (for both the adopting const buffer and the
emptied source); the target of a move construction of a valid buffer is
valid as well.  The exception forced by the counterexample: an object of
either class that has itself been moved from holds a null `shared_ptr`
and does not satisfy I1 (until reassigned). -/
theorem C3_valid_handle_amended (s : Store) (m m2 : mutable_shared_buffer)
    (c : const_shared_buffer) (bytes bv : byte_vec) (sz i : Nat) (b : Byte)
    (f : byte_vec → byte_vec) (hm : validHandle s m.m_data)
    (hm2 : validHandle s m2.m_data) (hc : validHandle s c.m_data) :
    validHandle (mutable_shared_buffer.mkDefault s).1
      (mutable_shared_buffer.mkDefault s).2.m_data
    ∧ validHandle (mutable_shared_buffer.mkCopy s bytes).1
      (mutable_shared_buffer.mkCopy s bytes).2.m_data
    ∧ validHandle (mutable_shared_buffer.mkMoveVec s bv).1
      (mutable_shared_buffer.mkMoveVec s bv).2.m_data
    ∧ validHandle (mutable_shared_buffer.mkSized s sz).1
      (mutable_shared_buffer.mkSized s sz).2.m_data
    ∧ validHandle s m.copy.m_data
    ∧ validHandle (m.append s bytes).1 (m.append s bytes).2.m_data
    ∧ validHandle (m.resize s sz) m.m_data
    ∧ validHandle (m.clear s) m.m_data
    ∧ validHandle (m.writeByte s i b) m.m_data
    ∧ validHandle (m.modify_byte_vec s f) m.m_data
    ∧ validHandle s (m.swap m2).1.m_data
    ∧ validHandle s (m.swap m2).2.m_data
    ∧ validHandle (const_shared_buffer.fromMutableCopy s m).1
      (const_shared_buffer.fromMutableCopy s m).2.m_data
    ∧ validHandle (const_shared_buffer.fromMutableCopy s m).1 m.m_data
    ∧ validHandle (const_shared_buffer.fromMutableMove s m).1
      (const_shared_buffer.fromMutableMove s m).2.1.m_data
    ∧ validHandle (const_shared_buffer.fromMutableMove s m).1
      (const_shared_buffer.fromMutableMove s m).2.2.m_data
    ∧ validHandle (const_shared_buffer.mkCopy s bytes).1
      (const_shared_buffer.mkCopy s bytes).2.m_data
    ∧ validHandle (const_shared_buffer.mkMoveVec s bv).1
      (const_shared_buffer.mkMoveVec s bv).2.m_data
    ∧ validHandle s c.copy.m_data
    ∧ validHandle s (mutable_shared_buffer.moveConstruct m).1.m_data
    ∧ validHandle s (const_shared_buffer.moveConstruct c).1.m_data
    ∧ ¬ validHandle s (mutable_shared_buffer.moveConstruct m).2.m_data
    ∧ ¬ validHandle s (const_shared_buffer.moveConstruct c).2.m_data := by
  obtain ⟨h, hm', hv⟩ : ∃ h, m.m_data = some h ∧ h < s.len := by
    cases hmd : m.m_data with
    | none => rw [hmd] at hm; exact absurd hm (validHandle_none s)
    | some h => refine ⟨h, rfl, ?_⟩; rw [hmd] at hm; exact hm
  obtain ⟨hb, hm2', hv2⟩ : ∃ hb, m2.m_data = some hb ∧ hb < s.len := by
    cases hmd : m2.m_data with
    | none => rw [hmd] at hm2; exact absurd hm2 (validHandle_none s)
    | some hb => refine ⟨hb, rfl, ?_⟩; rw [hmd] at hm2; exact hm2
  obtain ⟨hcH, hc', hvc⟩ : ∃ hcH, c.m_data = some hcH ∧ hcH < s.len := by
    cases hmd : c.m_data with
    | none => rw [hmd] at hc; exact absurd hc (validHandle_none s)
    | some hcH => refine ⟨hcH, rfl, ?_⟩; rw [hmd] at hc; exact hc
  refine ⟨?_, ?_, ?_, ?_, ?_, ?_, ?_, ?_, ?_, ?_, ?_, ?_, ?_, ?_, ?_, ?_,
    ?_, ?_, ?_, ?_, ?_, ?_, ?_⟩
  · simp [mutable_shared_buffer.mkDefault, Store.alloc]
  · simp [mutable_shared_buffer.mkCopy, Store.alloc]
  · simp [mutable_shared_buffer.mkMoveVec, Store.alloc]
  · simp [mutable_shared_buffer.mkSized, Store.alloc]
  · simp [mutable_shared_buffer.copy, hm', hv]
  · simp [hm', hv]
  · simp [hm', hv]
  · simp [hm', hv]
  · simp [hm', hv]
  · simp [hm', hv]
  · simp [mutable_shared_buffer.swap, hm2', hv2]
  · simp [mutable_shared_buffer.swap, hm', hv]
  · simp [const_shared_buffer.fromMutableCopy, const_shared_buffer.mkCopy,
      Store.alloc]
  · simp only [const_shared_buffer.fromMutableCopy,
      const_shared_buffer.mkCopy, hm', validHandle_some, len_alloc]
    omega
  · simp only [const_shared_buffer.fromMutableMove, hm', validHandle_some,
      len_alloc]
    omega
  · simp [const_shared_buffer.fromMutableMove, Store.alloc]
  · simp [const_shared_buffer.mkCopy, Store.alloc]
  · simp [const_shared_buffer.mkMoveVec, Store.alloc]
  · simp [const_shared_buffer.copy, hc', hvc]
  · simp [mutable_shared_buffer.moveConstruct, hm', hv]
  · simp [const_shared_buffer.moveConstruct, hc', hvc]
  · simp [mutable_shared_buffer.moveConstruct]
  · simp [const_shared_buffer.moveConstruct]

theorem C3_valid_handle_amended_witness :
    validHandle stOne (mutable_shared_buffer.mk (some 0)).m_data
    ∧ validHandle stOne (mutable_shared_buffer.mk (some 0)).m_data
    ∧ validHandle stOne (const_shared_buffer.mk (some 0)).m_data
    ∧ (validHandle (mutable_shared_buffer.mkDefault stOne).1
        (mutable_shared_buffer.mkDefault stOne).2.m_data
      ∧ validHandle (mutable_shared_buffer.mkCopy stOne [2]).1
        (mutable_shared_buffer.mkCopy stOne [2]).2.m_data
      ∧ validHandle (mutable_shared_buffer.mkMoveVec stOne [3]).1
        (mutable_shared_buffer.mkMoveVec stOne [3]).2.m_data
      ∧ validHandle (mutable_shared_buffer.mkSized stOne 2).1
        (mutable_shared_buffer.mkSized stOne 2).2.m_data
      ∧ validHandle stOne
        (mutable_shared_buffer.mk (some 0)).copy.m_data
      ∧ validHandle
        ((mutable_shared_buffer.mk (some 0)).append stOne [2]).1
        ((mutable_shared_buffer.mk (some 0)).append stOne [2]).2.m_data
      ∧ validHandle ((mutable_shared_buffer.mk (some 0)).resize stOne 2)
        (mutable_shared_buffer.mk (some 0)).m_data
      ∧ validHandle ((mutable_shared_buffer.mk (some 0)).clear stOne)
        (mutable_shared_buffer.mk (some 0)).m_data
      ∧ validHandle ((mutable_shared_buffer.mk (some 0)).writeByte stOne 0 4)
        (mutable_shared_buffer.mk (some 0)).m_data
      ∧ validHandle
        ((mutable_shared_buffer.mk (some 0)).modify_byte_vec stOne id)
        (mutable_shared_buffer.mk (some 0)).m_data
      ∧ validHandle stOne
        ((mutable_shared_buffer.mk (some 0)).swap
          (mutable_shared_buffer.mk (some 0))).1.m_data
      ∧ validHandle stOne
        ((mutable_shared_buffer.mk (some 0)).swap
          (mutable_shared_buffer.mk (some 0))).2.m_data
      ∧ validHandle (const_shared_buffer.fromMutableCopy stOne
          (mutable_shared_buffer.mk (some 0))).1
        (const_shared_buffer.fromMutableCopy stOne
          (mutable_shared_buffer.mk (some 0))).2.m_data
      ∧ validHandle (const_shared_buffer.fromMutableCopy stOne
          (mutable_shared_buffer.mk (some 0))).1
        (mutable_shared_buffer.mk (some 0)).m_data
      ∧ validHandle (const_shared_buffer.fromMutableMove stOne
          (mutable_shared_buffer.mk (some 0))).1
        (const_shared_buffer.fromMutableMove stOne
          (mutable_shared_buffer.mk (some 0))).2.1.m_data
      ∧ validHandle (const_shared_buffer.fromMutableMove stOne
          (mutable_shared_buffer.mk (some 0))).1
        (const_shared_buffer.fromMutableMove stOne
          (mutable_shared_buffer.mk (some 0))).2.2.m_data
      ∧ validHandle (const_shared_buffer.mkCopy stOne [2]).1
        (const_shared_buffer.mkCopy stOne [2]).2.m_data
      ∧ validHandle (const_shared_buffer.mkMoveVec stOne [3]).1
        (const_shared_buffer.mkMoveVec stOne [3]).2.m_data
      ∧ validHandle stOne (const_shared_buffer.mk (some 0)).copy.m_data
      ∧ validHandle stOne
        (mutable_shared_buffer.moveConstruct
          (mutable_shared_buffer.mk (some 0))).1.m_data
      ∧ validHandle stOne
        (const_shared_buffer.moveConstruct
          (const_shared_buffer.mk (some 0))).1.m_data
      ∧ ¬ validHandle stOne
        (mutable_shared_buffer.moveConstruct
          (mutable_shared_buffer.mk (some 0))).2.m_data
      ∧ ¬ validHandle stOne
        (const_shared_buffer.moveConstruct
          (const_shared_buffer.mk (some 0))).2.m_data) :=
  ⟨by decide, by decide, by decide,
    C3_valid_handle_amended stOne (mutable_shared_buffer.mk (some 0))
      (mutable_shared_buffer.mk (some 0)) (const_shared_buffer.mk (some 0))
      [2] [3] 2 0 4 id (by decide) (by decide) (by decide)⟩

/-- Claim C4: constructing a const buffer by copying a mutable buffer B
with content S yields a const buffer byte-equal to S, leaves B unchanged
(B still holds S), and the const storage is independent of B: subsequent
mutations of B (append, resize, clear, writes through `data()`) do not
change the bytes observed through the const buffer. -/
theorem C4_copy_construct_independent (s : Store)
    (m : mutable_shared_buffer) (h : Nat) (hm : m.m_data = some h)
    (hv : h < s.len) (bytes : byte_vec) (sz i : Nat) (b : Byte) :
    (const_shared_buffer.fromMutableCopy s m).2.contents
        (const_shared_buffer.fromMutableCopy s m).1 = m.contents s
    ∧ m.contents (const_shared_buffer.fromMutableCopy s m).1 = m.contents s
    ∧ (const_shared_buffer.fromMutableCopy s m).2.contents
        (m.append (const_shared_buffer.fromMutableCopy s m).1 bytes).1 =
      m.contents s
    ∧ (const_shared_buffer.fromMutableCopy s m).2.contents
        (m.resize (const_shared_buffer.fromMutableCopy s m).1 sz) =
      m.contents s
    ∧ (const_shared_buffer.fromMutableCopy s m).2.contents
        (m.clear (const_shared_buffer.fromMutableCopy s m).1) =
      m.contents s
    ∧ (const_shared_buffer.fromMutableCopy s m).2.contents
        (m.writeByte (const_shared_buffer.fromMutableCopy s m).1 i b) =
      m.contents s := by
  have hne : h ≠ s.len := Nat.ne_of_lt hv
  have hc : (const_shared_buffer.fromMutableCopy s m).2.m_data =
      some s.len := rfl
  have hcs1 : (const_shared_buffer.fromMutableCopy s m).2.contents
      (const_shared_buffer.fromMutableCopy s m).1 = m.contents s := by
    rw [ccontents_eq_getBlock _ _ hc]
    exact getBlock_alloc_self s (m.contents s)
  refine ⟨hcs1, ?_, ?_, ?_, ?_, ?_⟩
  · rw [contents_eq_getBlock _ m hm]
    show (s.alloc (m.contents s)).1.getBlock h = m.contents s
    rw [getBlock_alloc_ne hne, ← contents_eq_getBlock s m hm]
  · rw [ccontents_eq_getBlock _ _ hc,
      append_getBlock_other _ m hm bytes (Ne.symm hne),
      ← ccontents_eq_getBlock _ _ hc, hcs1]
  · rw [ccontents_eq_getBlock _ _ hc,
      resize_getBlock_other _ m hm sz (Ne.symm hne),
      ← ccontents_eq_getBlock _ _ hc, hcs1]
  · rw [ccontents_eq_getBlock _ _ hc,
      clear_getBlock_other _ m hm (Ne.symm hne),
      ← ccontents_eq_getBlock _ _ hc, hcs1]
  · rw [ccontents_eq_getBlock _ _ hc,
      writeByte_getBlock_other _ m hm i b (Ne.symm hne),
      ← ccontents_eq_getBlock _ _ hc, hcs1]

theorem C4_copy_construct_independent_witness :
    (mutable_shared_buffer.mk (some 0)).m_data = some 0
    ∧ 0 < stEx.len
    ∧ ((const_shared_buffer.fromMutableCopy stEx
            (mutable_shared_buffer.mk (some 0))).2.contents
          (const_shared_buffer.fromMutableCopy stEx
            (mutable_shared_buffer.mk (some 0))).1 = [7, 8]
      ∧ (mutable_shared_buffer.mk (some 0)).contents
          (const_shared_buffer.fromMutableCopy stEx
            (mutable_shared_buffer.mk (some 0))).1 = [7, 8]
      ∧ (const_shared_buffer.fromMutableCopy stEx
            (mutable_shared_buffer.mk (some 0))).2.contents
          ((mutable_shared_buffer.mk (some 0)).append
            (const_shared_buffer.fromMutableCopy stEx
              (mutable_shared_buffer.mk (some 0))).1 [9]).1 = [7, 8]
      ∧ (const_shared_buffer.fromMutableCopy stEx
            (mutable_shared_buffer.mk (some 0))).2.contents
          ((mutable_shared_buffer.mk (some 0)).resize
            (const_shared_buffer.fromMutableCopy stEx
              (mutable_shared_buffer.mk (some 0))).1 1) = [7, 8]
      ∧ (const_shared_buffer.fromMutableCopy stEx
            (mutable_shared_buffer.mk (some 0))).2.contents
          ((mutable_shared_buffer.mk (some 0)).clear
            (const_shared_buffer.fromMutableCopy stEx
              (mutable_shared_buffer.mk (some 0))).1) = [7, 8]
      ∧ (const_shared_buffer.fromMutableCopy stEx
            (mutable_shared_buffer.mk (some 0))).2.contents
          ((mutable_shared_buffer.mk (some 0)).writeByte
            (const_shared_buffer.fromMutableCopy stEx
              (mutable_shared_buffer.mk (some 0))).1 0 9) = [7, 8]) :=
  ⟨rfl, by decide,
    C4_copy_construct_independent stEx (mutable_shared_buffer.mk (some 0))
      0 rfl (by decide) [9] 1 0 9⟩

/-- Claim C6: append is concatenation.  `append` returns the same buffer
object, grows the size by exactly the appended length, and yields content
equal to the old content followed by the appended bytes (so the existing
content stays unchanged as the new content starts with it); appending X
then Y to an empty buffer yields exactly X ++ Y. -/
theorem C6_append_concat (s : Store) (m : mutable_shared_buffer) (h : Nat)
    (hm : m.m_data = some h) (hv : h < s.len) (X Y : byte_vec) :
    (m.append s X).2 = m
    ∧ m.size (m.append s X).1 = m.size s + X.length
    ∧ m.contents (m.append s X).1 = m.contents s ++ X
    ∧ (m.contents s = [] →
        m.contents (m.append (m.append s X).1 Y).1 = X ++ Y) := by
  have h1 : m.contents (m.append s X).1 = m.contents s ++ X := by
    rw [contents_eq_getBlock _ _ hm, append_getBlock_self s m hm X,
      ← contents_eq_getBlock s m hm]
  have h2 : m.contents (m.append (m.append s X).1 Y).1 =
      (m.contents s ++ X) ++ Y := by
    rw [contents_eq_getBlock _ _ hm, append_getBlock_self _ m hm Y,
      ← contents_eq_getBlock _ m hm, h1]
  refine ⟨append_snd s m X, ?_, h1, ?_⟩
  · simp [mutable_shared_buffer.size, h1]
  · intro hemp
    rw [h2, hemp, List.nil_append]

theorem C6_append_concat_witness :
    (mutable_shared_buffer.mk (some 0)).m_data = some 0
    ∧ 0 < stNil.len
    ∧ (((mutable_shared_buffer.mk (some 0)).append stNil [1, 2]).2 =
        mutable_shared_buffer.mk (some 0)
      ∧ (mutable_shared_buffer.mk (some 0)).size
          ((mutable_shared_buffer.mk (some 0)).append stNil [1, 2]).1 =
        (mutable_shared_buffer.mk (some 0)).size stNil + 2
      ∧ (mutable_shared_buffer.mk (some 0)).contents
          ((mutable_shared_buffer.mk (some 0)).append stNil [1, 2]).1 =
        [1, 2]
      ∧ ((mutable_shared_buffer.mk (some 0)).contents stNil = [] →
          (mutable_shared_buffer.mk (some 0)).contents
            ((mutable_shared_buffer.mk (some 0)).append
              ((mutable_shared_buffer.mk (some 0)).append stNil
                [1, 2]).1 [3]).1 = [1, 2, 3])) :=
  ⟨rfl, by decide,
    C6_append_concat stNil (mutable_shared_buffer.mk (some 0)) 0 rfl
      (by decide) [1, 2] [3]⟩

/-- Claim C9: shared-mutable aliasing (invariant I2).  A buffer A obtained
from M by copy construction or copy assignment shares the same storage
handle, observes the same content in every store state, and every
mutation performed through M (append, resize, clear, a byte written
through `data()`) is immediately visible through A, and vice versa; there
is no copy-on-write divergence. -/
theorem C9_shared_mutable_aliasing (s : Store) (m a : mutable_shared_buffer)
    (h : Nat) (hm : m.m_data = some h) (hv : h < s.len) (ha : a = m.copy)
    (bytes : byte_vec) (sz i : Nat) (b : Byte) :
    a.m_data = m.m_data
    ∧ a.contents s = m.contents s
    ∧ a.contents (m.append s bytes).1 = m.contents s ++ bytes
    ∧ a.contents (m.resize s sz) = vecResize (m.contents s) sz
    ∧ a.contents (m.clear s) = []
    ∧ a.contents (m.writeByte s i b) = (m.contents s).set i b
    ∧ m.contents (a.append s bytes).1 = m.contents s ++ bytes
    ∧ m.contents (a.clear s) = [] := by
  subst ha
  have hA : (m.copy).m_data = some h := hm
  refine ⟨rfl, rfl, ?_, ?_, ?_, ?_, ?_, ?_⟩
  · rw [contents_eq_getBlock _ _ hA, append_getBlock_self s m hm bytes,
      ← contents_eq_getBlock s m hm]
  · rw [contents_eq_getBlock _ _ hA, resize_getBlock_self s m hm sz,
      contents_eq_getBlock s m hm]
  · rw [contents_eq_getBlock _ _ hA, clear_getBlock_self s m hm]
  · rw [contents_eq_getBlock _ _ hA, writeByte_getBlock_self s m hm i b,
      contents_eq_getBlock s m hm]
  · rw [contents_eq_getBlock _ m hm, append_getBlock_self s m.copy hA bytes,
      ← contents_eq_getBlock s m hm]
  · rw [contents_eq_getBlock _ m hm, clear_getBlock_self s m.copy hA]

theorem C9_shared_mutable_aliasing_witness :
    (mutable_shared_buffer.mk (some 0)).m_data = some 0
    ∧ 0 < stOne.len
    ∧ mutable_shared_buffer.copy (mutable_shared_buffer.mk (some 0)) =
      (mutable_shared_buffer.mk (some 0)).copy
    ∧ ((mutable_shared_buffer.copy (mutable_shared_buffer.mk (some 0))).m_data =
        (mutable_shared_buffer.mk (some 0)).m_data
      ∧ (mutable_shared_buffer.copy
            (mutable_shared_buffer.mk (some 0))).contents stOne = [1]
      ∧ (mutable_shared_buffer.copy
            (mutable_shared_buffer.mk (some 0))).contents
          ((mutable_shared_buffer.mk (some 0)).append stOne [2]).1 = [1, 2]
      ∧ (mutable_shared_buffer.copy
            (mutable_shared_buffer.mk (some 0))).contents
          ((mutable_shared_buffer.mk (some 0)).resize stOne 3) = [1, 0, 0]
      ∧ (mutable_shared_buffer.copy
            (mutable_shared_buffer.mk (some 0))).contents
          ((mutable_shared_buffer.mk (some 0)).clear stOne) = []
      ∧ (mutable_shared_buffer.copy
            (mutable_shared_buffer.mk (some 0))).contents
          ((mutable_shared_buffer.mk (some 0)).writeByte stOne 0 9) = [9]
      ∧ (mutable_shared_buffer.mk (some 0)).contents
          ((mutable_shared_buffer.copy
              (mutable_shared_buffer.mk (some 0))).append stOne [2]).1 =
        [1, 2]
      ∧ (mutable_shared_buffer.mk (some 0)).contents
          ((mutable_shared_buffer.copy
              (mutable_shared_buffer.mk (some 0))).clear stOne) = []) :=
  ⟨rfl, by decide, rfl,
    C9_shared_mutable_aliasing stOne (mutable_shared_buffer.mk (some 0))
      (mutable_shared_buffer.copy (mutable_shared_buffer.mk (some 0))) 0
      rfl (by decide) rfl [2] 3 0 9⟩

/-- Claim C10: `get_byte_vec()` hands out the very byte sequence the
buffer owns, not a copy: it reads as exactly the buffer content, and any
modification made through the returned reference (modelled as replacing
the owned vector by a function of its old value, which covers element
writes, resize, clear and push_back) is subsequently observed through the
buffer via `data()`/`contents`, `size()` and `empty()`, and through every
alias sharing the same storage handle. -/
theorem C10_get_byte_vec_is_the_buffer (s : Store)
    (m a : mutable_shared_buffer) (h : Nat) (hm : m.m_data = some h)
    (hv : h < s.len) (ha : a.m_data = m.m_data) (f : byte_vec → byte_vec) :
    m.get_byte_vec s = m.contents s
    ∧ m.get_byte_vec (m.modify_byte_vec s f) = f (m.get_byte_vec s)
    ∧ m.contents (m.modify_byte_vec s f) = f (m.get_byte_vec s)
    ∧ m.size (m.modify_byte_vec s f) = (f (m.get_byte_vec s)).length
    ∧ (m.empty (m.modify_byte_vec s f) = true ↔ f (m.get_byte_vec s) = [])
    ∧ a.contents (m.modify_byte_vec s f) = f (m.get_byte_vec s) := by
  have hA : a.m_data = some h := ha.trans hm
  have hmain : m.contents (m.modify_byte_vec s f) = f (m.get_byte_vec s) := by
    show m.contents (m.modify_byte_vec s f) = f (m.contents s)
    rw [contents_eq_getBlock _ _ hm, modify_getBlock_self s m hm f,
      contents_eq_getBlock s m hm]
  refine ⟨rfl, hmain, hmain, ?_, ?_, ?_⟩
  · simp [mutable_shared_buffer.size, hmain]
  · show (m.contents (m.modify_byte_vec s f)).isEmpty = true ↔
      f (m.get_byte_vec s) = []
    rw [hmain, List.isEmpty_iff]
  · show a.contents (m.modify_byte_vec s f) = f (m.contents s)
    rw [contents_eq_getBlock _ a hA, modify_getBlock_self s m hm f,
      contents_eq_getBlock s m hm]

theorem C10_get_byte_vec_is_the_buffer_witness :
    (mutable_shared_buffer.mk (some 0)).m_data = some 0
    ∧ 0 < stEx.len
    ∧ (mutable_shared_buffer.mk (some 0)).m_data =
      (mutable_shared_buffer.mk (some 0)).m_data
    ∧ ((mutable_shared_buffer.mk (some 0)).get_byte_vec stEx = [7, 8]
      ∧ (mutable_shared_buffer.mk (some 0)).get_byte_vec
          ((mutable_shared_buffer.mk (some 0)).modify_byte_vec stEx
            List.reverse) = [8, 7]
      ∧ (mutable_shared_buffer.mk (some 0)).contents
          ((mutable_shared_buffer.mk (some 0)).modify_byte_vec stEx
            List.reverse) = [8, 7]
      ∧ (mutable_shared_buffer.mk (some 0)).size
          ((mutable_shared_buffer.mk (some 0)).modify_byte_vec stEx
            List.reverse) = 2
      ∧ ((mutable_shared_buffer.mk (some 0)).empty
          ((mutable_shared_buffer.mk (some 0)).modify_byte_vec stEx
            List.reverse) = true ↔ ([8, 7] : byte_vec) = [])
      ∧ (mutable_shared_buffer.mk (some 0)).contents
          ((mutable_shared_buffer.mk (some 0)).modify_byte_vec stEx
            List.reverse) = [8, 7]) :=
  ⟨rfl, by decide, rfl,
    C10_get_byte_vec_is_the_buffer stEx (mutable_shared_buffer.mk (some 0))
      (mutable_shared_buffer.mk (some 0)) 0 rfl (by decide) rfl
      List.reverse⟩

end chops
